import Mathlib

/-!
Verification of `openweathermapy` (core module).

Shallow embedding of `openweathermapy/core.py` and of the nested-access
utility it uses.  The source repository ships only `core.py`; the module
`openweathermapy.utils` (providing `NestedDict`, `NestedDictList` and the
HTTP helper) is referenced by `core.py` but its code is not part of the
sources, so the Nested Accessor operations are modelled from the
specification's contract (each such definition is marked
`Modelled from the spec:` in its doc comment).  Everything else is
translated directly from `core.py`.

JSON values are modelled with rational numbers standing for JSON numbers
and association lists (key order preserved, first match wins) standing
for parsed JSON objects.
-/

/-- A parsed JSON value: recursively null, boolean, number, string,
ordered sequence, or mapping (association list, insertion order kept). -/
inductive Json where
  | null : Json
  | bool (b : Bool) : Json
  | num (q : Rat) : Json
  | str (s : String) : Json
  | arr (xs : List Json) : Json
  | obj (kvs : List (String × Json)) : Json

/-- `true` on every JSON value except a mapping or an ordered sequence:
the "leaf" values of the dotted-path contract. -/
def Json.isLeaf : Json → Bool
  | .obj _ => false
  | .arr _ => false
  | _ => true

/-- `true` exactly on mappings. -/
def Json.isObj : Json → Bool
  | .obj _ => true
  | _ => false

/-- Python-style mapping lookup on an association list: first entry whose
key equals `k`, if any. -/
def lookupKey : List (String × Json) → String → Option Json
  | [], _ => none
  | (k', v) :: rest, k => if k' = k then some v else lookupKey rest k

/-- Splitting a character list on a single separator character, with the
semantics of Python's `str.split(sep)`: the empty string yields `[[]]`,
and consecutive separators yield empty segments. -/
def splitSep (sep : Char) : List Char → List (List Char)
  | [] => [[]]
  | c :: cs =>
    if c = sep then [] :: splitSep sep cs
    else
      match splitSep sep cs with
      | [] => [[c]]
      | s :: ss => (c :: s) :: ss

theorem splitSep_ne_nil (sep : Char) (cs : List Char) : splitSep sep cs ≠ [] := by
  induction cs with
  | nil => simp [splitSep]
  | cons c cs ih =>
    rw [splitSep]
    split
    · simp
    · match h : splitSep sep cs with
      | [] => exact absurd h ih
      | s :: ss => simp

/-- Splitting a list with a separator inserted in the middle splits each
part independently. -/
theorem splitSep_append (sep : Char) (x y : List Char) :
    splitSep sep (x ++ sep :: y) = splitSep sep x ++ splitSep sep y := by
  induction x with
  | nil => simp [splitSep]
  | cons c x ih =>
    by_cases hc : c = sep
    · subst hc
      simp [splitSep, ih]
    · rw [List.cons_append, splitSep, if_neg hc, ih, splitSep, if_neg hc]
      cases h : splitSep sep x with
      | nil => exact absurd h (splitSep_ne_nil sep x)
      | cons s ss => simp

/-- The error taxonomy of the Nested Accessor contract (spec §7):
distinct typed conditions, never a generic failure. -/
inductive AccessError where
  | InvalidPath : AccessError
  | KeyNotFound : AccessError
  | TypeMismatch : AccessError
deriving DecidableEq

/-- Modelled from the spec: the Nested Accessor (`NestedDict` of
`openweathermapy.utils`, whose code is not among the sources) is a
read-only view over a single parsed JSON mapping. -/
structure NestedDict where
  data : List (String × Json)

/-- Modelled from the spec: segment-by-segment resolution.  For each
segment, the current value must be a mapping (`TypeMismatch` otherwise)
and the segment must be present as a key (`KeyNotFound` otherwise); the
final segment's lookup result is returned as-is, whatever its type. -/
def resolve : Json → List (List Char) → Except AccessError Json
  | v, [] => .ok v
  | .obj kvs, s :: rest =>
    match lookupKey kvs (String.mk s) with
    | some v => resolve v rest
    | none => .error .KeyNotFound
  | _, _ :: _ => .error .TypeMismatch

/-- Modelled from the spec: `get(path)` splits `path` on the (single
character) separator, fails with `InvalidPath` when the path is empty or
has an empty segment, and otherwise resolves the segments from the root
mapping. -/
def NestedDict.get (d : NestedDict) (sep : Char) (p : String) : Except AccessError Json :=
  if [] ∈ splitSep sep p.data then .error .InvalidPath
  else resolve (Json.obj d.data) (splitSep sep p.data)

/-- Modelled from the spec: `get_many(paths)` computes one result per
path, in order, each independently via `get`, failing at the first
failing path. -/
def NestedDict.get_many (d : NestedDict) (sep : Char) : List String → Except AccessError (List Json)
  | [] => .ok []
  | p :: ps =>
    match d.get sep p with
    | .ok v =>
      match d.get_many sep ps with
      | .ok vs => .ok (v :: vs)
      | .error e => .error e
    | .error e => .error e

/-- Chaining plain subscript access segment-by-segment
(`m[s1][s2]...[sn]` on native mappings): `none` when a subscript fails,
either because a key is absent or a non-mapping is subscripted. -/
def chainSub : Json → List (List Char) → Option Json
  | v, [] => some v
  | .obj kvs, s :: rest =>
    match lookupKey kvs (String.mk s) with
    | some v => chainSub v rest
    | none => none
  | _, _ :: _ => none

/-- The result of subscripting a Nested Accessor with a single key:
a nested accessor when the value is itself a mapping, the raw value
otherwise (spec §4.1). -/
inductive SubVal where
  | acc (d : NestedDict) : SubVal
  | val (j : Json) : SubVal

/-- The JSON value a subscript result stands for. -/
def SubVal.toJson : SubVal → Json
  | .acc d => .obj d.data
  | .val j => j

/-- Modelled from the spec: single-key subscript access on a Nested
Accessor, equivalent to native mapping subscript access, wrapping
mapping values in a nested accessor. -/
def NestedDict.getItem (d : NestedDict) (k : String) : Option SubVal :=
  match lookupKey d.data k with
  | some (.obj kvs) => some (.acc ⟨kvs⟩)
  | some v => some (.val v)
  | none => none

theorem resolve_append (l₁ l₂ : List (List Char)) (v : Json) :
    resolve v (l₁ ++ l₂) =
      match resolve v l₁ with
      | .ok w => resolve w l₂
      | .error e => .error e := by
  induction l₁ generalizing v with
  | nil => simp [resolve]
  | cons s l₁ ih =>
    cases v with
    | obj kvs =>
      simp only [List.cons_append, resolve]
      cases lookupKey kvs (String.mk s) with
      | some w => exact ih w
      | none => rfl
    | null => simp [resolve]
    | bool b => simp [resolve]
    | num q => simp [resolve]
    | str t => simp [resolve]
    | arr xs => simp [resolve]

theorem resolve_ok_iff_chainSub (segs : List (List Char)) (v w : Json) :
    resolve v segs = .ok w ↔ chainSub v segs = some w := by
  induction segs generalizing v with
  | nil => simp [resolve, chainSub]
  | cons s segs ih =>
    cases v with
    | obj kvs =>
      rw [resolve, chainSub]
      cases lookupKey kvs (String.mk s) with
      | some u => exact ih u
      | none => simp
    | null => simp [resolve, chainSub]
    | bool b => simp [resolve, chainSub]
    | num q => simp [resolve, chainSub]
    | str t => simp [resolve, chainSub]
    | arr xs => simp [resolve, chainSub]

theorem resolve_not_obj (v : Json) (s : List Char) (rest : List (List Char))
    (h : v.isObj = false) : resolve v (s :: rest) = .error .TypeMismatch := by
  cases v with
  | obj kvs => simp [Json.isObj] at h
  | null => rfl
  | bool b => rfl
  | num q => rfl
  | str t => rfl
  | arr xs => rfl

/-- Shared concrete mapping for witnesses, the spec's concrete scenario:
`{"main": {"temp": 280.32}, "wind": {"speed": 1.5}}`. -/
def wData : NestedDict :=
  ⟨[("main", Json.obj [("temp", Json.num 280.32)]),
    ("wind", Json.obj [("speed", Json.num 1.5)])]⟩

/-- Claim C1: for every well-formed mapping and valid dotted path (default
separator `.`, no empty segment) that resolves to a leaf value `v` by
chaining plain subscript access segment-by-segment, `get` on that path
returns exactly `v`. -/
theorem get_eq_chained_subscript (d : NestedDict) (p : String) (v : Json)
    (hvalid : [] ∉ splitSep '.' p.data)
    (_hleaf : v.isLeaf = true)
    (hchain : chainSub (Json.obj d.data) (splitSep '.' p.data) = some v) :
    d.get '.' p = .ok v := by
  rw [NestedDict.get, if_neg hvalid]
  exact (resolve_ok_iff_chainSub _ _ _).mpr hchain

/-- Witness for C1 at the spec's concrete scenario. -/
theorem get_eq_chained_subscript_witness :
    wData.get '.' "main.temp" = .ok (Json.num 280.32) :=
  get_eq_chained_subscript wData "main.temp" (Json.num 280.32) (by decide) rfl rfl

/-- Claim C6: whenever a path segment (intermediate or final) is absent
from the mapping reached at its level, `get` fails with the typed
condition `KeyNotFound`. -/
theorem get_absent_key_fails_KeyNotFound (d : NestedDict) (p : String)
    (pre : List (List Char)) (s : List Char) (post : List (List Char))
    (kvs : List (String × Json))
    (hsegs : splitSep '.' p.data = pre ++ s :: post)
    (hvalid : [] ∉ splitSep '.' p.data)
    (hpre : resolve (Json.obj d.data) pre = .ok (Json.obj kvs))
    (habs : lookupKey kvs (String.mk s) = none) :
    d.get '.' p = .error .KeyNotFound := by
  rw [NestedDict.get, if_neg hvalid, hsegs, resolve_append, hpre]
  simp [resolve, habs]

/-- Witness for C6: `get("main.missing")` on the scenario mapping. -/
theorem get_absent_key_fails_KeyNotFound_witness :
    wData.get '.' "main.missing" = .error .KeyNotFound :=
  get_absent_key_fails_KeyNotFound wData "main.missing"
    ["main".data] "missing".data [] [("temp", Json.num 280.32)]
    (by decide) (by decide) rfl rfl

/-- Claim C7: whenever a non-final path segment resolves to a value that
is not a mapping, `get` fails with the typed condition `TypeMismatch`. -/
theorem get_nonmapping_fails_TypeMismatch (d : NestedDict) (p : String)
    (pre : List (List Char)) (s : List Char) (post : List (List Char)) (v : Json)
    (hsegs : splitSep '.' p.data = pre ++ s :: post)
    (hpost : post ≠ [])
    (hvalid : [] ∉ splitSep '.' p.data)
    (hres : resolve (Json.obj d.data) (pre ++ [s]) = .ok v)
    (hno : v.isObj = false) :
    d.get '.' p = .error .TypeMismatch := by
  obtain ⟨t, rest, rfl⟩ : ∃ t rest, post = t :: rest := by
    cases post with
    | nil => exact absurd rfl hpost
    | cons t r => exact ⟨t, r, rfl⟩
  rw [NestedDict.get, if_neg hvalid, hsegs]
  have hsplit : pre ++ s :: t :: rest = (pre ++ [s]) ++ t :: rest := by simp
  rw [hsplit, resolve_append, hres]
  exact resolve_not_obj v t rest hno

/-- Witness for C7: `get("main.temp.x")` on the scenario mapping, where
`280.32` is not a mapping. -/
theorem get_nonmapping_fails_TypeMismatch_witness :
    wData.get '.' "main.temp.x" = .error .TypeMismatch :=
  get_nonmapping_fails_TypeMismatch wData "main.temp.x"
    ["main".data] "temp".data ["x".data] (Json.num 280.32)
    (by decide) (by decide) (by decide) rfl rfl

/-- Claim C8: on the empty path string, and on every path containing two
consecutive separators, `get` fails with the typed condition
`InvalidPath`. -/
theorem get_empty_segment_fails_InvalidPath (d : NestedDict) (p : String)
    (h : p = "" ∨ ∃ a b, p.data = a ++ '.' :: '.' :: b) :
    d.get '.' p = .error .InvalidPath := by
  have hmem : [] ∈ splitSep '.' p.data := by
    rcases h with h | ⟨a, b, h⟩
    · subst h
      decide
    · rw [h, show ('.' :: '.' :: b) = ('.' :: ('.' :: b)) from rfl, splitSep_append]
      have h2 : splitSep '.' ('.' :: b) = [] :: splitSep '.' b := by
        rw [splitSep, if_pos rfl]
      rw [h2]
      exact List.mem_append.mpr (Or.inr (List.mem_cons_self _ _))
  rw [NestedDict.get, if_pos hmem]

/-- Witness for C8 at the path `"a..b"`. -/
theorem get_empty_segment_fails_InvalidPath_witness :
    wData.get '.' "a..b" = .error .InvalidPath :=
  get_empty_segment_fails_InvalidPath wData "a..b" (Or.inr ⟨['a'], ['b'], by decide⟩)

/-- Claim C9: on a sequence of paths on which every individual `get`
succeeds, `get_many` succeeds with a sequence of the same length whose
`i`-th element is the result of `get` on the `i`-th path. -/
theorem get_many_eq_map_get (d : NestedDict) (ps : List String)
    (h : ∀ p ∈ ps, ∃ v, d.get '.' p = .ok v) :
    ∃ vs, d.get_many '.' ps = .ok vs ∧ vs.length = ps.length ∧
      ∀ i (h1 : i < ps.length) (h2 : i < vs.length),
        d.get '.' (ps.get ⟨i, h1⟩) = .ok (vs.get ⟨i, h2⟩) := by
  induction ps with
  | nil => exact ⟨[], rfl, rfl, fun i h1 _ => absurd h1 (by simp)⟩
  | cons p ps ih =>
    obtain ⟨v, hv⟩ := h p (List.mem_cons_self _ _)
    obtain ⟨vs, hvs, hlen, hidx⟩ := ih (fun q hq => h q (List.mem_cons_of_mem _ hq))
    refine ⟨v :: vs, ?_, by simp [hlen], ?_⟩
    · rw [NestedDict.get_many, hv, hvs]
    · intro i h1 h2
      cases i with
      | zero => exact hv
      | succ n => exact hidx n (Nat.lt_of_succ_lt_succ h1) (Nat.lt_of_succ_lt_succ h2)

/-- Witness for C9 at the spec's concrete scenario paths. -/
theorem get_many_eq_map_get_witness :
    ∃ vs, wData.get_many '.' ["main.temp", "wind.speed"] = .ok vs ∧
      vs.length = (["main.temp", "wind.speed"] : List String).length ∧
      ∀ i (h1 : i < (["main.temp", "wind.speed"] : List String).length) (h2 : i < vs.length),
        wData.get '.' ((["main.temp", "wind.speed"] : List String).get ⟨i, h1⟩) =
          .ok (vs.get ⟨i, h2⟩) :=
  get_many_eq_map_get wData ["main.temp", "wind.speed"] (by
    intro p hp
    simp only [List.mem_cons, List.not_mem_nil, or_false] at hp
    rcases hp with rfl | rfl
    · exact ⟨Json.num 280.32, rfl⟩
    · exact ⟨Json.num 1.5, rfl⟩)

/-- A location argument accepted by a wrapped request builder
(`core.py`, `wrap_get.call`): a city id (int), geographic coordinates
(a pair), or a city name (any other value, a string). -/
inductive Loc where
  | byId (n : Int) : Loc
  | byCoord (lat lon : Rat) : Loc
  | byName (s : String) : Loc
deriving DecidableEq

/-- Python truthiness of a location argument: `0` and `""` are falsy,
a two-element tuple is always truthy. -/
def Loc.truthy : Loc → Bool
  | .byId n => n != 0
  | .byCoord _ _ => true
  | .byName s => s != ""

/-- A query-parameter value. -/
inductive PVal where
  | vint (n : Int) : PVal
  | vrat (q : Rat) : PVal
  | vstr (s : String) : PVal
  | vloc (l : Loc) : PVal
deriving DecidableEq

/-- Python dict assignment `params[k] = v` on an association list:
replaces the value in place if the key exists, appends otherwise. -/
def setParam : List (String × PVal) → String → PVal → List (String × PVal)
  | [], k, v => [(k, v)]
  | (k', v') :: rest, k, v =>
    if k' = k then (k, v) :: rest else (k', v') :: setParam rest k v

/-- Mapping lookup on the query parameters. -/
def getParam : List (String × PVal) → String → Option PVal
  | [], _ => none
  | (k', v) :: rest, k => if k' = k then some v else getParam rest k

/-- Python `params.update(settings)`: assign every settings entry in
order. -/
def updateParams (ps : List (String × PVal)) : List (String × PVal) → List (String × PVal)
  | [] => ps
  | (k, v) :: rest => updateParams (setParam ps k v) rest

/-- The body of `call` inside `wrap_get` (`core.py` lines 66-78): for a
truthy `loc`, store it under `"loc"`, then dispatch on its runtime type
to set `"id"`, or `"lat"`/`"lon"`, or `"q"`; finally merge in the
`settings` mapping (`None` settings modelled as the empty list, whose
update is the identity). -/
def wrapGetCall (loc : Option Loc) (params settings : List (String × PVal)) :
    List (String × PVal) :=
  let params1 :=
    match loc with
    | none => params
    | some l =>
      if l.truthy then
        let p0 := setParam params "loc" (.vloc l)
        match l with
        | .byId n => setParam p0 "id" (.vint n)
        | .byCoord la lo => setParam (setParam p0 "lat" (.vrat la)) "lon" (.vrat lo)
        | .byName s => setParam p0 "q" (.vstr s)
      else params
  updateParams params1 settings

theorem getParam_setParam_same (ps : List (String × PVal)) (k : String) (v : PVal) :
    getParam (setParam ps k v) k = some v := by
  induction ps with
  | nil => simp [setParam, getParam]
  | cons e rest ih =>
    obtain ⟨k', v'⟩ := e
    by_cases h : k' = k
    · simp [setParam, getParam, h]
    · simp [setParam, getParam, h, ih]

theorem getParam_setParam_other (ps : List (String × PVal)) (k k' : String) (v : PVal)
    (h : k ≠ k') : getParam (setParam ps k' v) k = getParam ps k := by
  induction ps with
  | nil => simp [setParam, getParam, Ne.symm h]
  | cons e rest ih =>
    obtain ⟨k'', v''⟩ := e
    by_cases h2 : k'' = k'
    · simp [setParam, getParam, h2, Ne.symm h]
    · simp [setParam, getParam, h2, ih]

theorem getParam_updateParams_absent (ss ps : List (String × PVal)) (k : String)
    (h : getParam ss k = none) :
    getParam (updateParams ps ss) k = getParam ps k := by
  induction ss generalizing ps with
  | nil => rfl
  | cons e rest ih =>
    obtain ⟨k', v'⟩ := e
    rw [getParam] at h
    by_cases h2 : k' = k
    · simp [h2] at h
    · rw [if_neg h2] at h
      rw [updateParams, ih _ h, getParam_setParam_other _ _ _ _ (Ne.symm h2)]

/-- Claim C2: for a truthy location argument, the wrapped request
builder populates, among the location-selecting query parameters
`"id"`, `"lat"`, `"lon"`, `"q"`, exactly the ones of the matched case:
`"id"` for a number, `"lat"`/`"lon"` for a coordinate pair, `"q"` for a
string — provided the caller's other keyword parameters and the
settings do not themselves use those reserved keys. -/
theorem wrap_get_location_dispatch (l : Loc) (params settings : List (String × PVal))
    (ht : l.truthy = true)
    (hp1 : getParam params "id" = none) (hp2 : getParam params "lat" = none)
    (hp3 : getParam params "lon" = none) (hp4 : getParam params "q" = none)
    (hs1 : getParam settings "id" = none) (hs2 : getParam settings "lat" = none)
    (hs3 : getParam settings "lon" = none) (hs4 : getParam settings "q" = none) :
    match l with
    | .byId n =>
        getParam (wrapGetCall (some l) params settings) "id" = some (.vint n) ∧
        getParam (wrapGetCall (some l) params settings) "lat" = none ∧
        getParam (wrapGetCall (some l) params settings) "lon" = none ∧
        getParam (wrapGetCall (some l) params settings) "q" = none
    | .byCoord la lo =>
        getParam (wrapGetCall (some l) params settings) "lat" = some (.vrat la) ∧
        getParam (wrapGetCall (some l) params settings) "lon" = some (.vrat lo) ∧
        getParam (wrapGetCall (some l) params settings) "id" = none ∧
        getParam (wrapGetCall (some l) params settings) "q" = none
    | .byName s =>
        getParam (wrapGetCall (some l) params settings) "q" = some (.vstr s) ∧
        getParam (wrapGetCall (some l) params settings) "id" = none ∧
        getParam (wrapGetCall (some l) params settings) "lat" = none ∧
        getParam (wrapGetCall (some l) params settings) "lon" = none := by
  cases l with
  | byId n =>
    simp only [Loc.truthy] at ht
    simp only [wrapGetCall, Loc.truthy, ht, if_true]
    refine ⟨?_, ?_, ?_, ?_⟩
    · rw [getParam_updateParams_absent _ _ _ hs1, getParam_setParam_same]
    · rw [getParam_updateParams_absent _ _ _ hs2,
        getParam_setParam_other _ _ _ _ (by decide),
        getParam_setParam_other _ _ _ _ (by decide), hp2]
    · rw [getParam_updateParams_absent _ _ _ hs3,
        getParam_setParam_other _ _ _ _ (by decide),
        getParam_setParam_other _ _ _ _ (by decide), hp3]
    · rw [getParam_updateParams_absent _ _ _ hs4,
        getParam_setParam_other _ _ _ _ (by decide),
        getParam_setParam_other _ _ _ _ (by decide), hp4]
  | byCoord la lo =>
    simp only [wrapGetCall, Loc.truthy, if_true]
    refine ⟨?_, ?_, ?_, ?_⟩
    · rw [getParam_updateParams_absent _ _ _ hs2,
        getParam_setParam_other _ _ _ _ (by decide), getParam_setParam_same]
    · rw [getParam_updateParams_absent _ _ _ hs3, getParam_setParam_same]
    · rw [getParam_updateParams_absent _ _ _ hs1,
        getParam_setParam_other _ _ _ _ (by decide),
        getParam_setParam_other _ _ _ _ (by decide),
        getParam_setParam_other _ _ _ _ (by decide), hp1]
    · rw [getParam_updateParams_absent _ _ _ hs4,
        getParam_setParam_other _ _ _ _ (by decide),
        getParam_setParam_other _ _ _ _ (by decide),
        getParam_setParam_other _ _ _ _ (by decide), hp4]
  | byName s =>
    simp only [Loc.truthy] at ht
    simp only [wrapGetCall, Loc.truthy, ht, if_true]
    refine ⟨?_, ?_, ?_, ?_⟩
    · rw [getParam_updateParams_absent _ _ _ hs4, getParam_setParam_same]
    · rw [getParam_updateParams_absent _ _ _ hs1,
        getParam_setParam_other _ _ _ _ (by decide),
        getParam_setParam_other _ _ _ _ (by decide), hp1]
    · rw [getParam_updateParams_absent _ _ _ hs2,
        getParam_setParam_other _ _ _ _ (by decide),
        getParam_setParam_other _ _ _ _ (by decide), hp2]
    · rw [getParam_updateParams_absent _ _ _ hs3,
        getParam_setParam_other _ _ _ _ (by decide),
        getParam_setParam_other _ _ _ _ (by decide), hp3]

/-- Witness for C2: a city id with typical pass-through parameters. -/
theorem wrap_get_location_dispatch_witness :
    getParam (wrapGetCall (some (.byId 2892518))
      [("units", .vstr "metric")] [("lang", .vstr "de")]) "id" = some (.vint 2892518) ∧
    getParam (wrapGetCall (some (.byId 2892518))
      [("units", .vstr "metric")] [("lang", .vstr "de")]) "lat" = none ∧
    getParam (wrapGetCall (some (.byId 2892518))
      [("units", .vstr "metric")] [("lang", .vstr "de")]) "lon" = none ∧
    getParam (wrapGetCall (some (.byId 2892518))
      [("units", .vstr "metric")] [("lang", .vstr "de")]) "q" = none :=
  wrap_get_location_dispatch (.byId 2892518) [("units", .vstr "metric")]
    [("lang", .vstr "de")] rfl rfl rfl rfl rfl rfl rfl rfl rfl

/-- Python `dict.pop(k)`: the value at the first entry with key `k`
together with the mapping with that entry removed; `none` models the
`KeyError` raised when `k` is absent. -/
def popKey : List (String × Json) → String → Option (Json × List (String × Json))
  | [], _ => none
  | (k', v) :: rest, k =>
    if k' = k then some (v, rest)
    else
      match popKey rest k with
      | some (w, rest') => some (w, (k', v) :: rest')
      | none => none

/-- Modelled from the spec: `NestedDictList` wraps each record mapping
of an ordered sequence in its own Nested Accessor; `none` when some
element is not a mapping. -/
def asAccessorList : List Json → Option (List NestedDict)
  | [] => some []
  | .obj kvs :: rest =>
    match asAccessorList rest with
    | some ds => some (NestedDict.mk kvs :: ds)
    | none => none
  | _ :: _ => none

/-- The list wrapper of `core.py` (`DataBlock`): the records of the
reserved `"list"` key, each wrapped, plus the remaining metadata as the
`info` accessor. -/
structure DataBlock where
  records : List NestedDict
  info : NestedDict

/-- Construction of `DataBlock` (`core.py` lines 109-111), with the
mutation of the argument made explicit: `data.pop("list")` removes the
reserved key from the caller's mapping, so the result carries both the
constructed block and the post-construction state of the argument
mapping.  `none` models the exceptions raised when `"list"` is absent
or its value is not a sequence of mappings. -/
def dataBlockInit (data : List (String × Json)) :
    Option (DataBlock × List (String × Json)) :=
  match popKey data "list" with
  | some (.arr items, rest) =>
    match asAccessorList items with
    | some ds => some (⟨ds, ⟨rest⟩⟩, rest)
    | none => none
  | _ => none

/-- Construction of a Nested Accessor over a mapping, with the (absent)
mutation of the argument made explicit in the same state-passing style:
`dict.__init__` copies its argument, so the post-construction state is
the argument unchanged. -/
def nestedDictInit (data : List (String × Json)) :
    NestedDict × List (String × Json) :=
  (⟨data⟩, data)

/-- The concrete scenario mapping of the spec:
`{"list": [{"dt": 1}, {"dt": 2}], "city": {"id": 99}}`. -/
def exListData : List (String × Json) :=
  [("list", Json.arr [Json.obj [("dt", Json.num 1)], Json.obj [("dt", Json.num 2)]]),
   ("city", Json.obj [("id", Json.num 99)])]

/-- Claim C3: on the spec's concrete scenario mapping, the list wrapper
yields exactly two records, accessible by index 0 and 1, each a Nested
Accessor over the corresponding record mapping, and an `info` accessor
over the original mapping with the reserved `"list"` key removed. -/
theorem dataBlock_concrete_scenario :
    ∃ db rest, dataBlockInit exListData = some (db, rest) ∧
      db.records.length = 2 ∧
      db.records.get? 0 = some ⟨[("dt", Json.num 1)]⟩ ∧
      db.records.get? 1 = some ⟨[("dt", Json.num 2)]⟩ ∧
      db.info = ⟨[("city", Json.obj [("id", Json.num 99)])]⟩ :=
  ⟨⟨[⟨[("dt", Json.num 1)]⟩, ⟨[("dt", Json.num 2)]⟩],
    ⟨[("city", Json.obj [("id", Json.num 99)])]⟩⟩,
   [("city", Json.obj [("id", Json.num 99)])],
   rfl, rfl, rfl, rfl, rfl⟩

theorem lookupKey_popKey (kvs : List (String × Json)) (kp k : String) (v : Json)
    (rest : List (String × Json)) (h : popKey kvs kp = some (v, rest)) (hne : k ≠ kp) :
    lookupKey rest k = lookupKey kvs k := by
  induction kvs generalizing v rest with
  | nil => simp [popKey] at h
  | cons e tl ih =>
    obtain ⟨k', w⟩ := e
    rw [popKey] at h
    by_cases h2 : k' = kp
    · rw [if_pos h2] at h
      simp only [Option.some.injEq, Prod.mk.injEq] at h
      obtain ⟨-, rfl⟩ := h
      have hk : ¬k' = k := fun e => hne (e ▸ h2)
      simp [lookupKey, hk]
    · rw [if_neg h2] at h
      cases h3 : popKey tl kp with
      | none => rw [h3] at h; simp at h
      | some pr =>
        obtain ⟨w', rest'⟩ := pr
        rw [h3] at h
        simp only [Option.some.injEq, Prod.mk.injEq] at h
        obtain ⟨-, rfl⟩ := h
        by_cases h4 : k' = k
        · simp [lookupKey, h4]
        · simp [lookupKey, h4, ih w' rest' h3]

/-- Claim C4, counterexample: on the spec's own scenario mapping the
list wrapper does mutate its argument — the reserved `"list"` key is
present before construction and absent from the argument mapping
afterwards (`data.pop("list")` in `core.py` line 110). -/
theorem dataBlock_mutates_argument :
    lookupKey exListData "list" ≠ none ∧
    (dataBlockInit exListData).map (fun r => lookupKey r.2 "list") = some none :=
  ⟨fun h => Option.noConfusion h, rfl⟩

/-- Claim C4 (amended): wrapping a mapping in a Nested Accessor
introduces no mutation — the argument is unchanged and every top-level
key reads back through subscript access with its original value — while
constructing the list wrapper removes exactly the reserved `"list"` key
from the argument mapping, preserving every other top-level key with a
value equal to the original. -/
theorem wrap_no_mutation_except_reserved_key (kvs : List (String × Json)) (k : String) :
    (nestedDictInit kvs).2 = kvs ∧
    ((nestedDictInit kvs).1.getItem k).map SubVal.toJson = lookupKey kvs k ∧
    (∀ db rest, dataBlockInit kvs = some (db, rest) → k ≠ "list" →
      lookupKey rest k = lookupKey kvs k) := by
  refine ⟨rfl, ?_, ?_⟩
  · show ((NestedDict.mk kvs).getItem k).map SubVal.toJson = lookupKey kvs k
    rw [NestedDict.getItem]
    cases h : lookupKey kvs k with
    | none => rfl
    | some v => cases v <;> rfl
  · intro db rest h hk
    rw [dataBlockInit] at h
    split at h
    · rename_i items rest0 heq
      split at h
      · rename_i ds hacc
        simp only [Option.some.injEq, Prod.mk.injEq] at h
        obtain ⟨-, rfl⟩ := h
        exact lookupKey_popKey kvs "list" k (Json.arr items) rest0 heq hk
      · exact absurd h (by simp)
    · exact absurd h (by simp)

/-- Witness for the amended C4 at the scenario mapping and the key
`"city"`. -/
theorem wrap_no_mutation_except_reserved_key_witness :
    lookupKey [("city", Json.obj [("id", Json.num 99)])] "city" = lookupKey exListData "city" :=
  (wrap_no_mutation_except_reserved_key exListData "city").2.2
    ⟨[⟨[("dt", Json.num 1)]⟩, ⟨[("dt", Json.num 2)]⟩],
     ⟨[("city", Json.obj [("id", Json.num 99)])]⟩⟩
    [("city", Json.obj [("id", Json.num 99)])] rfl (by decide)

/-- What an API-call function of `core.py` returns: the raw parsed JSON
value, a `WeatherData` accessor (a `NestedDict` with an extra icon-url
method), or a `DataBlock`. -/
inductive ApiResult where
  | raw (j : Json) : ApiResult
  | weather (d : NestedDict) : ApiResult
  | block (b : DataBlock) : ApiResult

/-- `true` when the result is wrapped (accessor or list wrapper) rather
than the raw parsed value. -/
def ApiResult.isWrapped : ApiResult → Bool
  | .raw _ => false
  | _ => true

/-- Post-processing of `get_current` (`core.py` line 141):
`WeatherData(data)`; fails when the parsed value is not a mapping. -/
def get_current_wrap : Json → Option ApiResult
  | .obj kvs => some (.weather ⟨kvs⟩)
  | _ => none

/-- Post-processing of `get_current_for_group` (`core.py` line 157):
`DataBlock(data)`. -/
def get_current_for_group_wrap : Json → Option ApiResult
  | .obj kvs => (dataBlockInit kvs).map (fun r => .block r.1)
  | _ => none

/-- Post-processing of `find_city` (`core.py` lines 166-167): the parsed
value is returned as-is, unwrapped. -/
def find_city_wrap (j : Json) : Option ApiResult :=
  some (.raw j)

/-- Post-processing of `find_cities_by_geo_coord` (`core.py` line 182):
`DataBlock(data)`. -/
def find_cities_by_geo_coord_wrap : Json → Option ApiResult
  | .obj kvs => (dataBlockInit kvs).map (fun r => .block r.1)
  | _ => none

/-- Post-processing of `get_current_from_station` (`core.py` lines
186-187): the parsed value is returned as-is, unwrapped. -/
def get_current_from_station_wrap (j : Json) : Option ApiResult :=
  some (.raw j)

/-- Post-processing of `find_stations_by_geo_coord` (`core.py` line
192): `DataBlock(data)`. -/
def find_stations_by_geo_coord_wrap : Json → Option ApiResult
  | .obj kvs => (dataBlockInit kvs).map (fun r => .block r.1)
  | _ => none

/-- Post-processing of `get_forecast_hourly` (`core.py` line 200):
`DataBlock(data)`. -/
def get_forecast_hourly_wrap : Json → Option ApiResult
  | .obj kvs => (dataBlockInit kvs).map (fun r => .block r.1)
  | _ => none

/-- Post-processing of `get_forecast_daily` (`core.py` line 208):
`DataBlock(data)`. -/
def get_forecast_daily_wrap : Json → Option ApiResult
  | .obj kvs => (dataBlockInit kvs).map (fun r => .block r.1)
  | _ => none

/-- Post-processing of `get_history` (`core.py` lines 219-220): the
parsed value is returned as-is, unwrapped. -/
def get_history_wrap (j : Json) : Option ApiResult :=
  some (.raw j)

/-- Claim C5, counterexample: `find_city` returns the raw parsed
mapping, not a wrapped one, refuting "every API-call function ... never
the raw parsed mapping". -/
theorem find_city_returns_raw :
    (find_city_wrap (Json.obj [("cod", Json.num 200)])).map ApiResult.isWrapped =
      some false :=
  rfl

/-- Claim C5 (amended): `get_current`, `get_current_for_group`,
`find_cities_by_geo_coord`, `find_stations_by_geo_coord`,
`get_forecast_hourly` and `get_forecast_daily` return their parsed
response wrapped (accessor or list wrapper), while `find_city`,
`get_current_from_station` and `get_history` return the raw parsed
value unwrapped. -/
theorem api_glue_wrapping (j : Json) (r : ApiResult) :
    (get_current_wrap j = some r → r.isWrapped = true) ∧
    (get_current_for_group_wrap j = some r → r.isWrapped = true) ∧
    (find_cities_by_geo_coord_wrap j = some r → r.isWrapped = true) ∧
    (find_stations_by_geo_coord_wrap j = some r → r.isWrapped = true) ∧
    (get_forecast_hourly_wrap j = some r → r.isWrapped = true) ∧
    (get_forecast_daily_wrap j = some r → r.isWrapped = true) ∧
    find_city_wrap j = some (.raw j) ∧
    get_current_from_station_wrap j = some (.raw j) ∧
    get_history_wrap j = some (.raw j) := by
  have hblock : ∀ kvs, ∀ x ∈ (dataBlockInit kvs).map
      (fun r => ApiResult.block r.1), x.isWrapped = true := by
    intro kvs x hx
    obtain ⟨pr, -, rfl⟩ := Option.map_eq_some'.mp hx
    rfl
  refine ⟨?_, ?_, ?_, ?_, ?_, ?_, rfl, rfl, rfl⟩ <;> intro h
  · cases j with
    | obj kvs =>
      simp only [get_current_wrap, Option.some.injEq] at h
      rw [← h]
      rfl
    | null => exact absurd h (by simp [get_current_wrap])
    | bool b => exact absurd h (by simp [get_current_wrap])
    | num q => exact absurd h (by simp [get_current_wrap])
    | str s => exact absurd h (by simp [get_current_wrap])
    | arr xs => exact absurd h (by simp [get_current_wrap])
  all_goals
    cases j with
    | obj kvs => exact hblock kvs r h
    | null => exact absurd h (by simp [get_current_for_group_wrap,
        find_cities_by_geo_coord_wrap, find_stations_by_geo_coord_wrap,
        get_forecast_hourly_wrap, get_forecast_daily_wrap])
    | bool b => exact absurd h (by simp [get_current_for_group_wrap,
        find_cities_by_geo_coord_wrap, find_stations_by_geo_coord_wrap,
        get_forecast_hourly_wrap, get_forecast_daily_wrap])
    | num q => exact absurd h (by simp [get_current_for_group_wrap,
        find_cities_by_geo_coord_wrap, find_stations_by_geo_coord_wrap,
        get_forecast_hourly_wrap, get_forecast_daily_wrap])
    | str s => exact absurd h (by simp [get_current_for_group_wrap,
        find_cities_by_geo_coord_wrap, find_stations_by_geo_coord_wrap,
        get_forecast_hourly_wrap, get_forecast_daily_wrap])
    | arr xs => exact absurd h (by simp [get_current_for_group_wrap,
        find_cities_by_geo_coord_wrap, find_stations_by_geo_coord_wrap,
        get_forecast_hourly_wrap, get_forecast_daily_wrap])

/-- Witness for the amended C5: `get_current` on a concrete parsed
mapping yields a wrapped result. -/
theorem api_glue_wrapping_witness :
    (ApiResult.weather ⟨[("cod", Json.num 200)]⟩).isWrapped = true :=
  (api_glue_wrapping (Json.obj [("cod", Json.num 200)])
    (ApiResult.weather ⟨[("cod", Json.num 200)]⟩)).1 rfl

/-- A Python runtime exception relevant to the `Decorator` class. -/
inductive PyExc where
  | nameError (n : String) : PyExc
deriving DecidableEq

/-- Every name visible from the body of the inner `call` function of
`Decorator.__call__` (`core.py` lines 92-100), transcribed from the
source: the locals of `call` (`args`, `kwargs`, `params`, `data`), the
enclosing `__call__` scope (`self`, `f`, and `call` itself), and the
module scope of `core.py` (imports, module constants, and every
module-level function and class).  `__init__` is a sibling method, not
an enclosing scope, so its parameters (`appendix`, `settings`,
`data_type`) are not visible, and they are not stored on `self` either;
no Python builtin is named `data_type`. -/
def decoratorCallScope : List String :=
  ["args", "kwargs", "params", "data",
   "self", "f", "call",
   "functools", "json", "utils",
   "__author__", "__license__",
   "CITIES", "KASSEL_LATITUDE", "KASSEL_LONGITUDE", "KASSEL_LOC",
   "BASE_URL", "URL_ICON",
   "get", "wrap_get", "Decorator", "get_icon_url",
   "DataBlock", "WeatherData",
   "get_current", "get_current_for_group", "find_city",
   "find_cities_by_geo_coord", "get_current_from_station",
   "find_stations_by_geo_coord", "get_forecast_hourly",
   "get_forecast_daily", "get_history"]

/-- The tail of the inner `call` body after the request has been
performed (`core.py` lines 97-99): evaluating `if data_type:` resolves
the name `data_type` in the visible scope; an unresolvable name raises
`NameError`, otherwise the (possibly converted) data would be
returned. -/
def decoratorCallBody (fetched : Json) : Except PyExc Json :=
  if "data_type" ∈ decoratorCallScope then .ok fetched
  else .error (.nameError "data_type")

/-- Claim C10: whatever function the `Decorator` wraps and whatever the
fetched data is, invoking the wrapped function raises an unhandled
`NameError` for the name `data_type` and never returns any data. -/
theorem decorator_raises_NameError (fetched : Json) :
    decoratorCallBody fetched = .error (.nameError "data_type") := by
  rw [decoratorCallBody, if_neg]
  decide
